import Mathlib

/-!
Shallow embedding of `src/disk_usage.py`, a Home Assistant disk-usage
reporter.  The program is one loop: sample disk usage, compute
percentages, build a JSON payload, POST it, sleep.  Pure computations
(percentages, payload, URL) are translated to Lean functions; the
effectful loop body is translated to a function producing the list of
side effects of one iteration together with an optional uncaught
exception, and the whole `main` to a function from the startup inputs
and a finite trace of per-iteration environment outcomes to the effects
performed and how the process ends.
-/

/-- Program strings are modelled as lists of characters (`String.data`). -/
abbrev Str := List Char

/-- Result of `shutil.disk_usage(path)` (line 32): total, used and free byte
counts.  Python integers are arbitrary precision, so naturals model them. -/
structure UsageSample where
  total : Nat
  used : Nat
  free : Nat
  deriving DecidableEq

/-- Line 33, `used_percentage = (usage.used * 100) / usage.total`.  Python
multiplies arbitrary-precision integers (no overflow is possible) and `/` is
true division, so the exact mathematical value is the rational below. -/
def usedPercentage (u : UsageSample) : ℚ :=
  ((u.used : ℚ) * 100) / (u.total : ℚ)

/-- Line 34, `free_percentage = (usage.free * 100) / usage.total`. -/
def freePercentage (u : UsageSample) : ℚ :=
  ((u.free : ℚ) * 100) / (u.total : ℚ)

/-- Python values appearing as JSON data (payloads and parsed responses). -/
inductive PyJson where
  | null
  | bool (b : Bool)
  | num (q : ℚ)
  | str (s : Str)
  | arr (elems : List PyJson)
  | obj (fields : List (Str × PyJson))

/-- Python truthiness of a JSON value, as tested by `if response.json():`
(line 60): `None`, `False`, zero, and empty strings/lists/dicts are falsy. -/
def PyJson.truthy : PyJson → Bool
  | .null => false
  | .bool b => b
  | .num q => if q = 0 then false else true
  | .str s => !s.isEmpty
  | .arr xs => !xs.isEmpty
  | .obj fs => !fs.isEmpty

/-- Keys of a JSON object, in insertion order; `[]` for non-objects. -/
def PyJson.keys : PyJson → List Str
  | .obj fs => fs.map Prod.fst
  | _ => []

/-- Value bound to a key in a JSON object (first binding wins). -/
def PyJson.lookup : PyJson → Str → Option PyJson
  | .obj fs, k => List.lookup k fs
  | _, _ => none

/-- The `attributes` dict of the payload (lines 39–47), in source order.
`friendly_name` is the f-string `f"{hostname} {mount} Disk Usage"`. -/
def reportAttributes (hostname mount : Str) (u : UsageSample) : List (Str × PyJson) :=
  [("friendly_name".data, .str (hostname ++ " ".data ++ mount ++ " Disk Usage".data)),
   ("unit_of_measurement".data, .str "%".data),
   ("used_percentage".data, .num (usedPercentage u)),
   ("free_percentage".data, .num (freePercentage u)),
   ("total_bytes".data, .num u.total),
   ("used_bytes".data, .num u.used),
   ("free_bytes".data, .num u.free)]

/-- The `json` dict built at lines 37–48: top-level `state` and `attributes`. -/
def reportPayload (hostname mount : Str) (u : UsageSample) : PyJson :=
  .obj [("state".data, .num (usedPercentage u)),
        ("attributes".data, .obj (reportAttributes hostname mount u))]

/-- The sensor entity identifier `f"sensor.{hostname}_{mount}_disk_usage"`
(line 53): literal underscore-joining, no transformation of the parts. -/
def entityId (hostname mount : Str) : Str :=
  "sensor.".data ++ hostname ++ "_".data ++ mount ++ "_disk_usage".data

/-- One fold step of CPython `posixpath.join` (`os.path.join` on POSIX, used
at line 50): an absolute component replaces the path; otherwise a separator
is inserted unless the path so far is empty or already ends in `/`. -/
def osPathJoin (path b : Str) : Str :=
  if b.head? = some '/' then b
  else if path = [] ∨ path.getLast? = some '/' then path ++ b
  else path ++ '/' :: b

/-- The POST target URL of lines 50–53:
`os.path.join(ha_rest_api_url, "states", f"sensor.{hostname}_{mount}_disk_usage")`. -/
def postUrl (base hostname mount : Str) : Str :=
  osPathJoin (osPathJoin base "states".data) (entityId hostname mount)

/-- A Python exception, abstracted to what the program observes of it:
its `repr` (`%r`) and its message (`%s`). -/
structure PyExn where
  reprStr : Str
  msgStr : Str
  deriving DecidableEq

/-- Outcome of `shutil.disk_usage(path)` in one iteration: a sample, or a
raised exception (path missing, permission denied, ...). -/
inductive DiskResult where
  | ok (usage : UsageSample)
  | exn (e : PyExn)

/-- Outcome of the network step in one iteration: the POST succeeded and
`response.json()` parsed to the given value; the POST succeeded but
`response.json()` raised (body not JSON); or `requests.post` itself raised
(connection refused, timeout, DNS failure, ...). -/
inductive NetResult where
  | ok (parsed : PyJson)
  | parseFail (e : PyExn)
  | postFail (e : PyExn)

/-- Observable side effects of the loop, in program order: the disk query,
the debug log of line 54, the outbound POST attempt (line 56), the debug log
of line 59, the debug log of the parsed response (line 61), the error log of
line 63 carrying `%r` and `%s` of the exception, the debug log of line 64,
and the `time.sleep(interval)` of line 65. -/
inductive Effect where
  | diskSample (path : Str)
  | logPosting (url : Str) (body : PyJson)
  | httpPost (url : Str) (key : Str) (body : PyJson)
  | logGotResponse
  | logRespJson (parsed : PyJson)
  | logError (reprArg msgArg : Str)
  | logSleeping (interval : ℚ)
  | sleepFor (interval : ℚ)

/-- One iteration of the `while True:` loop (lines 31–65).  Returns the
effects performed and, when the disk query raises, the uncaught exception
that propagates out of the body.  The `try` of lines 55–63 covers the POST,
the response debug log and both `response.json()` calls; `except Exception`
catches any exception from them and logs it at error level, after which the
body falls through to the sleep either way. -/
def loopBody (hostname mount path key base : Str) (interval : ℚ)
    (d : DiskResult) (n : NetResult) : List Effect × Option PyExn :=
  match d with
  | .exn e => ([Effect.diskSample path], some e)
  | .ok usage =>
    let json := reportPayload hostname mount usage
    let url := postUrl base hostname mount
    ([Effect.diskSample path, Effect.logPosting url json,
        Effect.httpPost url key json] ++
      (match n with
        | .postFail e => [Effect.logError e.reprStr e.msgStr]
        | .parseFail e => [Effect.logGotResponse, Effect.logError e.reprStr e.msgStr]
        | .ok parsed =>
          Effect.logGotResponse ::
            (if parsed.truthy then [Effect.logRespJson parsed] else [])) ++
      [Effect.logSleeping interval, Effect.sleepFor interval], none)

/-- How a (finite prefix of a) run of the process ends: a startup `assert`
failed with the given message; an exception escaped the loop body; or the
loop is still running after the supplied iterations. -/
inductive Termination where
  | assertFail (msg : Str)
  | uncaught (e : PyExn)
  | running

/-- The loop itself, driven by a finite trace of per-iteration disk and
network outcomes: iterations run in order until one raises an uncaught
exception, which terminates the process. -/
def runIters (hostname mount path key base : Str) (interval : ℚ) :
    List (DiskResult × NetResult) → List Effect × Termination
  | [] => ([], .running)
  | (d, n) :: rest =>
    match loopBody hostname mount path key base interval d n with
    | (es, some e) => (es, .uncaught e)
    | (es, none) =>
      let r := runIters hostname mount path key base interval rest
      (es ++ r.1, r.2)

/-- Python truthiness of `os.getenv` results and of the URL argument:
`None` and the empty string are falsy, so `assert key` and
`assert ha_rest_api_url` reject both absent and empty values. -/
def pyTruthy : Option Str → Bool
  | none => false
  | some s => !s.isEmpty

/-- `main` (lines 20–65): the three startup `assert`s of lines 26–29 run
before the loop, in order, each failing with its message; only if all pass
does the loop run.  `envKey` is `os.getenv("HA_API_KEY")` and `apiUrl` the
`ha_rest_api_url` argument (which may be `None` when neither the flag nor
the environment variable is set). -/
def runMain (hostname mount path : Str) (envKey apiUrl : Option Str) (interval : ℚ)
    (iters : List (DiskResult × NetResult)) : List Effect × Termination :=
  if !pyTruthy envKey then
    ([], .assertFail "Need to specify HA_API_KEY in environment!".data)
  else if !pyTruthy apiUrl then
    ([], .assertFail "Please specify HA_REST_API_URL".data)
  else if interval ≤ 0 then
    ([], .assertFail "Stubbornly refusing to run tight loop".data)
  else
    runIters hostname mount path (envKey.getD []) (apiUrl.getD []) interval iters

/-- Recognises the outbound POST attempt among effects. -/
def isHttpPost : Effect → Bool
  | .httpPost _ _ _ => true
  | _ => false

/-- Recognises the debug log of a parsed response body (line 61). -/
def isRespJsonLog : Effect → Bool
  | .logRespJson _ => true
  | _ => false

/-- Whether an effect list contains a debug log of a parsed response body. -/
def hasRespJsonLog (es : List Effect) : Bool :=
  es.any isRespJsonLog

/-- Number of outbound POST attempts in an effect list. -/
def httpPostCount (es : List Effect) : Nat :=
  es.countP (fun e => isHttpPost e)

/-- Whether an effect list contains an error-level log (line 63). -/
def hasErrorLog (es : List Effect) : Bool :=
  es.any fun e =>
    match e with
    | .logError _ _ => true
    | _ => false

/-- C1: every iteration computes `used_percentage` as `used_bytes * 100 / total_bytes`
and `free_percentage` as `free_bytes * 100 / total_bytes`; Python performs the
multiplication on arbitrary-precision integers, so no overflow is possible and
the exact rational value (modelled over `ℚ`) is what true division produces.
The payload built by the loop carries exactly these values, and on
total=1000, used=400, free=600 they are exactly 40 and 60. -/
theorem c1_percentages_exact :
    (∀ u : UsageSample,
       usedPercentage u = ((u.used : ℚ) * 100) / (u.total : ℚ) ∧
       freePercentage u = ((u.free : ℚ) * 100) / (u.total : ℚ)) ∧
    (∀ hostname mount : Str, ∀ u : UsageSample,
       (reportPayload hostname mount u).lookup "state".data
         = some (.num (usedPercentage u)) ∧
       (PyJson.obj (reportAttributes hostname mount u)).lookup "used_percentage".data
         = some (.num (usedPercentage u)) ∧
       (PyJson.obj (reportAttributes hostname mount u)).lookup "free_percentage".data
         = some (.num (freePercentage u))) ∧
    usedPercentage ⟨1000, 400, 600⟩ = 40 ∧
    freePercentage ⟨1000, 400, 600⟩ = 60 := by
  refine ⟨fun u => ⟨rfl, rfl⟩, fun hostname mount u => ⟨rfl, rfl, rfl⟩, ?_, ?_⟩
  · show ((400 : ℕ) : ℚ) * 100 / ((1000 : ℕ) : ℚ) = 40
    norm_num
  · show ((600 : ℕ) : ℚ) * 100 / ((1000 : ℕ) : ℚ) = 60
    norm_num

/-- C7: under the data-model invariant (`used + free ≤ total`, `total > 0`),
both percentages lie in `[0, 100]` and their sum is exactly
`100 * (used + free) / total` (the model is exact rational arithmetic, so
the floating-point-tolerance clause is met with zero error). -/
theorem c7_percentage_bounds (u : UsageSample)
    (hinv : u.used + u.free ≤ u.total) (hpos : 0 < u.total) :
    0 ≤ usedPercentage u ∧ usedPercentage u ≤ 100 ∧
    0 ≤ freePercentage u ∧ freePercentage u ≤ 100 ∧
    usedPercentage u + freePercentage u
      = 100 * ((u.used : ℚ) + (u.free : ℚ)) / (u.total : ℚ) := by
  have ht : (0 : ℚ) < (u.total : ℚ) := by exact_mod_cast hpos
  have hu : (u.used : ℚ) ≤ (u.total : ℚ) := by
    exact_mod_cast le_trans (Nat.le_add_right _ _) hinv
  have hf : (u.free : ℚ) ≤ (u.total : ℚ) := by
    exact_mod_cast le_trans (Nat.le_add_left _ _) hinv
  have hu0 : (0 : ℚ) ≤ (u.used : ℚ) := Nat.cast_nonneg _
  have hf0 : (0 : ℚ) ≤ (u.free : ℚ) := Nat.cast_nonneg _
  refine ⟨?_, ?_, ?_, ?_, ?_⟩
  · exact div_nonneg (by positivity) ht.le
  · rw [usedPercentage, div_le_iff₀ ht]
    nlinarith
  · exact div_nonneg (by positivity) ht.le
  · rw [freePercentage, div_le_iff₀ ht]
    nlinarith
  · rw [usedPercentage, freePercentage, div_add_div_same]
    rw [show (u.used : ℚ) * 100 + (u.free : ℚ) * 100
        = 100 * ((u.used : ℚ) + (u.free : ℚ)) by ring]

/-- Witness for `c7_percentage_bounds` at total=1000, used=400, free=600. -/
theorem c7_percentage_bounds_witness :
    0 ≤ usedPercentage ⟨1000, 400, 600⟩ ∧ usedPercentage ⟨1000, 400, 600⟩ ≤ 100 ∧
    0 ≤ freePercentage ⟨1000, 400, 600⟩ ∧ freePercentage ⟨1000, 400, 600⟩ ≤ 100 ∧
    usedPercentage ⟨1000, 400, 600⟩ + freePercentage ⟨1000, 400, 600⟩
      = 100 * (((400 : ℕ) : ℚ) + ((600 : ℕ) : ℚ)) / ((1000 : ℕ) : ℚ) :=
  c7_percentage_bounds ⟨1000, 400, 600⟩ (by norm_num) (by norm_num)

/-- C8: the report body is a deterministic function of the sample and the
static configuration (it is a pure Lean function of exactly those), its
top-level keys are exactly `state` and `attributes`, `state` carries the used
percentage, and the attributes object carries exactly the seven listed fields
with the values taken from the iteration's sample. -/
theorem c8_payload_shape (hostname mount : Str) (u : UsageSample) :
    (reportPayload hostname mount u).keys = ["state".data, "attributes".data] ∧
    (reportPayload hostname mount u).lookup "state".data
      = some (.num (usedPercentage u)) ∧
    (reportPayload hostname mount u).lookup "attributes".data
      = some (.obj (reportAttributes hostname mount u)) ∧
    (PyJson.obj (reportAttributes hostname mount u)).keys
      = ["friendly_name".data, "unit_of_measurement".data, "used_percentage".data,
         "free_percentage".data, "total_bytes".data, "used_bytes".data,
         "free_bytes".data] ∧
    (PyJson.obj (reportAttributes hostname mount u)).lookup "friendly_name".data
      = some (.str (hostname ++ " ".data ++ mount ++ " Disk Usage".data)) ∧
    (PyJson.obj (reportAttributes hostname mount u)).lookup "unit_of_measurement".data
      = some (.str "%".data) ∧
    (PyJson.obj (reportAttributes hostname mount u)).lookup "used_percentage".data
      = some (.num (usedPercentage u)) ∧
    (PyJson.obj (reportAttributes hostname mount u)).lookup "free_percentage".data
      = some (.num (freePercentage u)) ∧
    (PyJson.obj (reportAttributes hostname mount u)).lookup "total_bytes".data
      = some (.num u.total) ∧
    (PyJson.obj (reportAttributes hostname mount u)).lookup "used_bytes".data
      = some (.num u.used) ∧
    (PyJson.obj (reportAttributes hostname mount u)).lookup "free_bytes".data
      = some (.num u.free) :=
  ⟨rfl, rfl, rfl, rfl, rfl, rfl, rfl, rfl, rfl, rfl, rfl⟩

/-- Every successful-disk-query iteration ends with the sleep-log and the
`time.sleep(interval)` effects, whatever the network step did: the
`try`/`except` falls through to lines 64–65 in every case. -/
theorem loopBody_ok_tail (hostname mount path key base : Str) (interval : ℚ)
    (usage : UsageSample) (n : NetResult) :
    ∃ pre : List Effect,
      (loopBody hostname mount path key base interval (.ok usage) n).1
        = pre ++ [Effect.logSleeping interval, Effect.sleepFor interval] := by
  cases n with
  | ok parsed =>
    exact ⟨[Effect.diskSample path,
        Effect.logPosting (postUrl base hostname mount) (reportPayload hostname mount usage),
        Effect.httpPost (postUrl base hostname mount) key (reportPayload hostname mount usage)] ++
        Effect.logGotResponse ::
          (if parsed.truthy then [Effect.logRespJson parsed] else []),
      rfl⟩
  | parseFail e =>
    exact ⟨[Effect.diskSample path,
        Effect.logPosting (postUrl base hostname mount) (reportPayload hostname mount usage),
        Effect.httpPost (postUrl base hostname mount) key (reportPayload hostname mount usage),
        Effect.logGotResponse, Effect.logError e.reprStr e.msgStr], rfl⟩
  | postFail e =>
    exact ⟨[Effect.diskSample path,
        Effect.logPosting (postUrl base hostname mount) (reportPayload hostname mount usage),
        Effect.httpPost (postUrl base hostname mount) key (reportPayload hostname mount usage),
        Effect.logError e.reprStr e.msgStr], rfl⟩

/-- C2: when the network step raises — whether `requests.post` itself fails
(connection refused, timeout, DNS failure) or `response.json()` fails to
parse — the loop body catches the exception (no uncaught exception leaves the
body), logs it at error level with the exception's `%r` and `%s`, makes
exactly one POST attempt (no retry), leaves the loop's continuation exactly as
on success, and still ends the iteration with the same sleep of the configured
interval, so the cadence is unchanged. -/
theorem c2_network_errors_caught (hostname mount path key base : Str) (interval : ℚ)
    (usage : UsageSample) (e : PyExn) (rest : List (DiskResult × NetResult)) :
    ((loopBody hostname mount path key base interval (.ok usage) (.postFail e)).2 = none ∧
      Effect.logError e.reprStr e.msgStr
        ∈ (loopBody hostname mount path key base interval (.ok usage) (.postFail e)).1 ∧
      httpPostCount (loopBody hostname mount path key base interval (.ok usage) (.postFail e)).1 = 1 ∧
      (runIters hostname mount path key base interval ((.ok usage, .postFail e) :: rest)).2
        = (runIters hostname mount path key base interval rest).2) ∧
    ((loopBody hostname mount path key base interval (.ok usage) (.parseFail e)).2 = none ∧
      Effect.logError e.reprStr e.msgStr
        ∈ (loopBody hostname mount path key base interval (.ok usage) (.parseFail e)).1 ∧
      httpPostCount (loopBody hostname mount path key base interval (.ok usage) (.parseFail e)).1 = 1 ∧
      (runIters hostname mount path key base interval ((.ok usage, .parseFail e) :: rest)).2
        = (runIters hostname mount path key base interval rest).2) ∧
    (∀ n : NetResult, ∃ pre : List Effect,
      (loopBody hostname mount path key base interval (.ok usage) n).1
        = pre ++ [Effect.logSleeping interval, Effect.sleepFor interval]) := by
  refine ⟨⟨rfl, ?_, rfl, rfl⟩, ⟨rfl, ?_, rfl, rfl⟩,
    loopBody_ok_tail hostname mount path key base interval usage⟩
  · simp [loopBody]
  · simp [loopBody]

/-- C9: an exception from `shutil.disk_usage` is outside the `try` block: it
leaves the loop body uncaught and terminates the whole run (no later
iteration contributes any effect), while exceptions from the network step are
caught and leave no uncaught exception — the asymmetry the spec describes. -/
theorem c9_disk_failure_fatal (hostname mount path key base : Str) (interval : ℚ)
    (e : PyExn) (n : NetResult) (rest : List (DiskResult × NetResult)) :
    (loopBody hostname mount path key base interval (.exn e) n).2 = some e ∧
    runIters hostname mount path key base interval ((.exn e, n) :: rest)
      = ([Effect.diskSample path], .uncaught e) ∧
    (∀ usage : UsageSample, ∀ e2 : PyExn,
      (loopBody hostname mount path key base interval (.ok usage) (.postFail e2)).2 = none ∧
      (loopBody hostname mount path key base interval (.ok usage) (.parseFail e2)).2 = none) :=
  ⟨rfl, rfl, fun _ _ => ⟨rfl, rfl⟩⟩

/-- C10: the startup `assert`s test truthiness, so an empty-string API key or
empty-string base URL is indistinguishable from an absent one — the whole run
behaves identically, and the empty string never reaches the loop. -/
theorem c10_empty_config_like_absent (hostname mount path : Str) (interval : ℚ)
    (iters : List (DiskResult × NetResult)) :
    (∀ apiUrl : Option Str,
      runMain hostname mount path (some []) apiUrl interval iters
        = runMain hostname mount path none apiUrl interval iters) ∧
    (∀ envKey : Option Str,
      runMain hostname mount path envKey (some []) interval iters
        = runMain hostname mount path envKey none interval iters) := by
  refine ⟨fun apiUrl => rfl, fun envKey => ?_⟩
  cases envKey with
  | none => rfl
  | some s => cases s <;> rfl

/-- Once the loop is running, no `assert` can fire any more: the loop only
ever ends a finite trace still running or with an uncaught exception. -/
theorem runIters_ne_assertFail (hostname mount path key base : Str) (interval : ℚ)
    (iters : List (DiskResult × NetResult)) (msg : Str) :
    (runIters hostname mount path key base interval iters).2
      ≠ Termination.assertFail msg := by
  induction iters with
  | nil => simp [runIters]
  | cons hd tl ih =>
    obtain ⟨d, n⟩ := hd
    cases hlb : loopBody hostname mount path key base interval d n with
    | mk es oe =>
      cases oe with
      | none => simpa [runIters, hlb] using ih
      | some e => simp [runIters, hlb]

/-- C4: a falsy API key (absent or empty `HA_API_KEY`) or falsy base URL
makes a startup `assert` fail with a non-empty message before the loop is
entered: the run performs no effect at all — no disk sample, no POST. -/
theorem c4_missing_config_fatal (hostname mount path : Str) (envKey apiUrl : Option Str)
    (interval : ℚ) (iters : List (DiskResult × NetResult))
    (h : pyTruthy envKey = false ∨ pyTruthy apiUrl = false) :
    (runMain hostname mount path envKey apiUrl interval iters).1 = [] ∧
    ∃ msg : Str, msg ≠ [] ∧
      (runMain hostname mount path envKey apiUrl interval iters).2
        = Termination.assertFail msg := by
  rcases h with h | h
  · refine ⟨by simp [runMain, h], "Need to specify HA_API_KEY in environment!".data,
      by decide, by simp [runMain, h]⟩
  · cases hk : pyTruthy envKey with
    | false =>
      refine ⟨by simp [runMain, hk], "Need to specify HA_API_KEY in environment!".data,
        by decide, by simp [runMain, hk]⟩
    | true =>
      refine ⟨by simp [runMain, hk, h], "Please specify HA_REST_API_URL".data,
        by decide, by simp [runMain, hk, h]⟩

/-- Witness for `c4_missing_config_fatal`: absent key, URL present. -/
theorem c4_missing_config_fatal_witness :
    (runMain [] [] [] none (some "http://ha".data) 60 []).1 = [] ∧
    ∃ msg : Str, msg ≠ [] ∧
      (runMain [] [] [] none (some "http://ha".data) 60 []).2
        = Termination.assertFail msg :=
  c4_missing_config_fatal [] [] [] none (some "http://ha".data) 60 [] (Or.inl rfl)

/-- C5: a non-positive interval makes startup fail fatally (the run performs
no effect and ends in an assertion failure), and with truthy key and URL a
strictly positive interval passes the startup checks: the run never ends in
an assertion failure. -/
theorem c5_interval_check (hostname mount path : Str) (envKey apiUrl : Option Str)
    (interval : ℚ) (iters : List (DiskResult × NetResult)) :
    (interval ≤ 0 →
      (runMain hostname mount path envKey apiUrl interval iters).1 = [] ∧
      ∃ msg : Str, (runMain hostname mount path envKey apiUrl interval iters).2
        = Termination.assertFail msg) ∧
    (0 < interval → pyTruthy envKey = true → pyTruthy apiUrl = true →
      ∀ msg : Str, (runMain hostname mount path envKey apiUrl interval iters).2
        ≠ Termination.assertFail msg) := by
  constructor
  · intro hle
    cases hk : pyTruthy envKey with
    | false =>
      exact ⟨by simp [runMain, hk], "Need to specify HA_API_KEY in environment!".data,
        by simp [runMain, hk]⟩
    | true =>
      cases hu : pyTruthy apiUrl with
      | false =>
        exact ⟨by simp [runMain, hk, hu], "Please specify HA_REST_API_URL".data,
          by simp [runMain, hk, hu]⟩
      | true =>
        exact ⟨by simp [runMain, hk, hu, hle], "Stubbornly refusing to run tight loop".data,
          by simp [runMain, hk, hu, hle]⟩
  · intro hpos hk hu msg
    have hnle : ¬ interval ≤ 0 := not_le.mpr hpos
    simpa [runMain, hk, hu, hnle] using
      runIters_ne_assertFail hostname mount path ((envKey.getD []))
        ((apiUrl.getD [])) interval iters msg

/-- Witness for `c5_interval_check`: interval −1 is rejected at startup,
interval 60 reaches the loop with both configuration values present. -/
theorem c5_interval_check_witness :
    (((runMain [] [] [] (some "k".data) (some "u".data) (-1) []).1 = [] ∧
      ∃ msg : Str, (runMain [] [] [] (some "k".data) (some "u".data) (-1) []).2
        = Termination.assertFail msg) ∧
     (∀ msg : Str, (runMain [] [] [] (some "k".data) (some "u".data) 60 []).2
        ≠ Termination.assertFail msg)) :=
  ⟨(c5_interval_check [] [] [] (some "k".data) (some "u".data) (-1) []).1 (by norm_num),
   (c5_interval_check [] [] [] (some "k".data) (some "u".data) 60 []).2 (by norm_num) rfl rfl⟩

/-- C3 is false as stated: a response body that parses as JSON is logged at
debug level only when the parsed value is truthy — here the body parses to
the empty object and no debug log of it is emitted — and a body that fails
to parse is not ignored: `response.json()` raises inside the `try`, so the
generic handler logs it at error level. -/
theorem c3_counterexample :
    hasRespJsonLog (loopBody "h".data "m".data "/".data "k".data "http://ha".data 60
        (.ok ⟨1000, 400, 600⟩) (.ok (PyJson.obj []))).1 = false ∧
    hasErrorLog (loopBody "h".data "m".data "/".data "k".data "http://ha".data 60
        (.ok ⟨1000, 400, 600⟩)
        (.parseFail ⟨"JSONDecodeError".data, "Expecting value".data⟩)).1 = true :=
  ⟨rfl, rfl⟩

/-- C3 (amended): on a successful response the parsed body is logged at debug
level if and only if it parses as JSON to a truthy value (a falsy parsed
value — `null`, `0`, `""`, `[]`, `{}`, `false` — is ignored); a body that
does not parse as JSON raises inside the `try` block and is caught and
logged at error level like any other network-step exception, with no
uncaught exception leaving the loop body. -/
theorem c3_amended_response_logging (hostname mount path key base : Str) (interval : ℚ)
    (usage : UsageSample) :
    (∀ parsed : PyJson,
      hasRespJsonLog
          (loopBody hostname mount path key base interval (.ok usage) (.ok parsed)).1
        = parsed.truthy ∧
      (Effect.logRespJson parsed
          ∈ (loopBody hostname mount path key base interval (.ok usage) (.ok parsed)).1
        ↔ parsed.truthy = true)) ∧
    (∀ e : PyExn,
      Effect.logError e.reprStr e.msgStr
        ∈ (loopBody hostname mount path key base interval (.ok usage) (.parseFail e)).1 ∧
      (loopBody hostname mount path key base interval (.ok usage) (.parseFail e)).2
        = none) := by
  constructor
  · intro parsed
    cases htr : parsed.truthy with
    | true =>
      exact ⟨by simp [loopBody, hasRespJsonLog, isRespJsonLog, htr],
        by simp [loopBody, htr]⟩
    | false =>
      exact ⟨by simp [loopBody, hasRespJsonLog, isRespJsonLog, htr],
        by simp [loopBody, htr]⟩
  · intro e
    exact ⟨by simp [loopBody], rfl⟩

/-- C6 is false as universally quantified over base URLs: `os.path.join`
inserts no separator after a base that already ends in `/`, so for
`base_url = "http://ha/"` the posted URL is not the literal
`{base_url}/states/{entity}` concatenation the claim describes. -/
theorem c6_counterexample :
    postUrl "http://ha/".data "nas1".data "data".data
      = "http://ha/states/sensor.nas1_data_disk_usage".data ∧
    postUrl "http://ha/".data "nas1".data "data".data
      ≠ "http://ha/".data ++ "/states/".data ++ entityId "nas1".data "data".data := by
  exact ⟨by decide, by decide⟩

/-- C6 (amended): the entity identifier is always the literal
underscore-join `sensor.{hostname}_{mount}_disk_usage` with no character
transformation (in particular `nas1`/`data` gives exactly
`sensor.nas1_data_disk_usage`), and for every nonempty base URL that does
not end in `/` the posted URL is exactly `{base_url}/states/{entity}`. -/
theorem c6_amended_post_url (base hostname mount : Str)
    (hne : base ≠ []) (hslash : base.getLast? ≠ some '/') :
    postUrl base hostname mount
      = base ++ "/states/".data ++ entityId hostname mount ∧
    entityId hostname mount
      = "sensor.".data ++ hostname ++ "_".data ++ mount ++ "_disk_usage".data ∧
    entityId "nas1".data "data".data = "sensor.nas1_data_disk_usage".data := by
  refine ⟨?_, rfl, by decide⟩
  have h1 : osPathJoin base "states".data = base ++ '/' :: "states".data := by
    simp only [osPathJoin]
    rw [if_neg (by decide), if_neg (not_or.mpr ⟨hne, hslash⟩)]
  have h2 : (base ++ '/' :: "states".data).getLast? = some 's' := by
    rw [List.getLast?_append_cons]
    rfl
  have h3 : osPathJoin (base ++ '/' :: "states".data) (entityId hostname mount)
      = (base ++ '/' :: "states".data) ++ '/' :: entityId hostname mount := by
    simp only [osPathJoin]
    rw [if_neg (show ¬ (entityId hostname mount).head? = some '/' by
          rw [show (entityId hostname mount).head? = some 's' from rfl]
          decide),
        if_neg (not_or.mpr ⟨by simp, show ¬ (base ++ '/' :: "states".data).getLast? = some '/' by
          rw [h2]
          decide⟩)]
  show osPathJoin (osPathJoin base "states".data) (entityId hostname mount)
    = base ++ "/states/".data ++ entityId hostname mount
  rw [h1, h3]
  simp only [List.append_assoc]
  rfl

/-- Witness for `c6_amended_post_url` at base `http://ha`, hostname `nas1`,
mount `data`. -/
theorem c6_amended_post_url_witness :
    postUrl "http://ha".data "nas1".data "data".data
      = "http://ha".data ++ "/states/".data ++ entityId "nas1".data "data".data ∧
    entityId "nas1".data "data".data
      = "sensor.".data ++ "nas1".data ++ "_".data ++ "data".data ++ "_disk_usage".data ∧
    entityId "nas1".data "data".data = "sensor.nas1_data_disk_usage".data :=
  c6_amended_post_url "http://ha".data "nas1".data "data".data (by decide) (by decide)
